import Mathlib

/-!
# Customizable Realtime CDR backend (`cdr/cdr_realtime.c`)

A shallow embedding of the module and the properties of its configuration
loader (`load_config`, `free_config`, `reload`) and of its per-record
dispatcher (`write_cdr`).

Conventions of the embedding.

* A C string is the list of its bytes before the terminating NUL (`CStr`).
* A NULL-terminated `struct ast_variable *` chain is the list of its nodes;
  the NULL pointer is the empty list.
* The three file-level variables `RT_Engine`, `fields` and `FilterCDR` are
  the record `Globals`, passed explicitly.
* Calls into the host (Asterisk) are the members of `Host`; the two host
  string routines whose length bound matters (`ast_copy_string`,
  `pbx_substitute_variables_helper`) are separate definitions below.
* Heap allocation inside `ast_variable_new` and `ast_cdr_dup` is taken to
  succeed; the one allocation the module checks itself
  (`ast_dummy_channel_alloc`) is a host outcome.
* `ast_log` and `ast_verb` append to a log that is returned with the result.
* `load_config`, `reload` and `write_cdr` are first given as functions of one
  module state (a call that runs undisturbed). The mutex `lock` and the
  interleaving of calls are the subject of the step model (`write_cdr_step`,
  `reload_step`, `Proc`), which is shown to agree with those functions when
  a call runs alone.
-/

namespace CdrRealtime

/-! ## Data model -/

/-- A C string, as the bytes before its terminator. -/
abbrev CStr := List Char

/-- One node of a `struct ast_variable` chain. -/
structure ast_variable where
  name : CStr
  value : CStr
  file : CStr
deriving DecidableEq, Repr

/-- The members of `struct ast_cdr` the module reads itself (`channel`,
`amaflags`), and the variable namespace only the host substitution reads. -/
structure ast_cdr where
  channel : CStr
  amaflags : Int
  varshead : List (CStr × CStr)
deriving DecidableEq, Repr

/-- The dummy channel of `write_cdr`: all it carries is the attached record. -/
structure ast_channel where
  cdr : Option ast_cdr
deriving DecidableEq, Repr

/-- A parsed configuration, seen through the two host accessors the module
calls on it: `ast_variable_retrieve(cfg, category, variable)` and
`ast_variable_browse(cfg, category)`. -/
structure ast_config where
  ast_variable_retrieve : CStr → CStr → Option CStr
  ast_variable_browse : CStr → List ast_variable

/-- What `ast_config_load` hands back: one of the three status sentinels or a
parsed configuration. -/
inductive ConfigLoad where
  | CONFIG_STATUS_FILEMISSING
  | CONFIG_STATUS_FILEINVALID
  | CONFIG_STATUS_FILEUNCHANGED
  | cfg (c : ast_config)

/-- Severity of a log line: `ast_log(LOG_WARNING, ..)`, `ast_log(LOG_ERROR, ..)`
or `ast_verb(3, ..)`. -/
inductive LogLevel where
  | LOG_WARNING
  | LOG_ERROR
  | VERBOSE
deriving DecidableEq, Repr

/-- One emitted log line: its severity and its format string. -/
structure LogEntry where
  level : LogLevel
  text : String
deriving DecidableEq, Repr

/-- The host calls the module makes, as parameters.

* `AST_AMA_BILLING`: the enumerator of `asterisk/cdr.h`.
* `ast_true`: the truth value of a boolean-like string (non-zero when true).
* `ast_config_load file unchangedFlag`: the load outcome; the flag says
  whether `CONFIG_FLAG_FILEUNCHANGED` was passed.
* `ast_dummy_channel_alloc`: the fresh dummy channel, or `none` for NULL.
* `substitute chan template`: the template with every placeholder replaced
  from the namespace of the record attached to `chan`, before any bound on
  its length is applied.
* `ast_store_realtime_fields family fields`: the storage write; negative on
  failure. -/
structure Host where
  AST_AMA_BILLING : Int
  ast_true : CStr → Int
  ast_config_load : CStr → Bool → ConfigLoad
  ast_dummy_channel_alloc : Option ast_channel
  substitute : ast_channel → CStr → CStr
  ast_store_realtime_fields : CStr → List ast_variable → Int

/-- The module state: `static char RT_Engine[30]`, `struct ast_variable *fields`
and `int FilterCDR`. -/
structure Globals where
  RT_Engine : CStr
  fields : List ast_variable
  FilterCDR : Int
deriving DecidableEq, Repr

/-- The state at program start: zeroed `RT_Engine`, `fields = NULL`,
`FilterCDR = 0`. -/
def Globals.init : Globals := { RT_Engine := [], fields := [], FilterCDR := 0 }

/-- The constant `config_file`. -/
def config_file : CStr := "cdr_realtime.conf".toList

/-- The declared size of `RT_Engine`. -/
def sizeof_RT_Engine : Nat := 30

/-- The declared size of `subst_buf`. -/
def sizeof_subst_buf : Nat := 1024

/-! ## Host string routines -/

/-- Host routine `ast_copy_string(dst, src, size)` of `asterisk/strings.h`,
which is outside this repository, after its documented contract: `size` is
the size of the destination including the terminator, so at most `size - 1`
bytes of `src` are kept. The result is the new content of `dst`. -/
def ast_copy_string (src : CStr) (size : Nat) : CStr :=
  src.take (size - 1)

/-- Modelled from the spec: the host routine
`pbx_substitute_variables_helper(c, cp1, cp2, count)` is missing from the
sources. It writes the substituted template into the buffer `cp2`, of which
`count` bytes may be used before the terminator; a longer result is cut
silently. The previous content of the buffer (`cp2`) is overwritten from its
first byte. The result is the new content of the buffer. -/
def pbx_substitute_variables_helper (h : Host) (c : ast_channel) (cp1 : CStr)
    (_cp2 : CStr) (count : Nat) : CStr :=
  (h.substitute c cp1).take count

/-- Host routine `ast_variable_new(name, value, filename)`: a fresh node. -/
def ast_variable_new (name value filename : CStr) : ast_variable :=
  { name := name, value := value, file := filename }

/-- Emit with `ast_verb(3, ..)`. -/
def ast_verb (text : String) : LogEntry := { level := LogLevel.VERBOSE, text := text }

/-- Emit with `ast_log(level, ..)`. -/
def ast_log (level : LogLevel) (text : String) : LogEntry := { level := level, text := text }

/-! ## Configuration loading -/

/-- Source `free_config`: drop the field chain and clear the filter flag. -/
def free_config (_reload : Int) (g : Globals) : Globals × List LogEntry :=
  let r : Globals × List LogEntry :=
    if g.fields ≠ [] then
      ({ g with fields := [] }, [ast_verb "Realtime CDR: free configurations fields"])
    else
      (g, [])
  ({ r.1 with FilterCDR := 0 }, r.2)

/-- The `for (; var; var = var->next)` loop of `load_config`: `var` runs over
the `columns` chain, `fields` is the global chain being built (the local
`first` points at its last node, so each new node goes to the end). -/
def load_columns : List ast_variable → List ast_variable → List LogEntry →
    List ast_variable × List LogEntry
  | [], fields, log => (fields, log)
  | var :: next, fields, log =>
    let node := ast_variable_new var.name var.value []
    let fields1 := match fields with
      | [] => [node]
      | _ :: _ => fields ++ [node]
    load_columns next fields1 (log ++ [ast_verb "CDR Realtime [add column] %s -> %s"])

/-- Lines 62 to 69 of `load_config`: the engine name. -/
def load_config_engine (cfg : ast_config) (g : Globals) : Globals × List LogEntry :=
  let e : Globals × List LogEntry :=
    match cfg.ast_variable_retrieve "general".toList "engine".toList with
    | some temp =>
      ({ g with RT_Engine := ast_copy_string temp (sizeof_RT_Engine - 1) }, [])
    | none =>
      ({ g with RT_Engine := ast_copy_string "CDR".toList (sizeof_RT_Engine - 1) },
       [ast_verb "CDR Realtime not found general/engine, use built-in engine name -> CDR"])
  (e.1, e.2 ++ [ast_verb "CDR Realtime [Engine] start CDR flow to engine -> %s"])

/-- Lines 71 to 78 of `load_config`: the filter flag. -/
def load_config_filter (h : Host) (cfg : ast_config) (g : Globals) :
    Globals × List LogEntry :=
  let g0 := { g with FilterCDR := 0 }
  match cfg.ast_variable_retrieve "general".toList "filter".toList with
  | some temp =>
    if h.ast_true temp ≠ 0 then
      ({ g0 with FilterCDR := 1 },
       [ast_verb "CDR Realtime enable filter CDR by CDR(amaflags) = BILLING"])
    else (g0, [])
  | none => (g0, [])

/-- Lines 80 to 92 of `load_config`: the field chain. -/
def load_config_columns (cfg : ast_config) (g : Globals) : Globals × List LogEntry :=
  let c := load_columns (cfg.ast_variable_browse "columns".toList) g.fields []
  ({ g with fields := c.1 }, c.2)

/-- Outcome of `load_config`: return value, new module state, log. -/
structure LoadResult where
  ret : Int
  globals : Globals
  log : List LogEntry

/-- Source `load_config`. The mutex taken on the reload path is left out
here; it is part of the interleaving model further down. -/
def load_config (h : Host) (reload : Int) (g : Globals) : LoadResult :=
  match h.ast_config_load config_file (decide (reload ≠ 0)) with
  | ConfigLoad.CONFIG_STATUS_FILEMISSING =>
    { ret := -1, globals := g,
      log := [ast_log LogLevel.LOG_WARNING "Failed to %sload configuration file. %s"] }
  | ConfigLoad.CONFIG_STATUS_FILEINVALID =>
    { ret := -1, globals := g,
      log := [ast_log LogLevel.LOG_WARNING "Failed to %sload configuration file. %s"] }
  | ConfigLoad.CONFIG_STATUS_FILEUNCHANGED =>
    { ret := 0, globals := g,
      log := [ast_verb "CDR Realtime config unchanged, skip reload options. Do Work!"] }
  | ConfigLoad.cfg cfg =>
    let s0 := free_config 0 g
    let s1 := load_config_engine cfg s0.1
    let s2 := load_config_filter h cfg s1.1
    let s3 := load_config_columns cfg s2.1
    { ret := 0, globals := s3.1, log := s0.2 ++ s1.2 ++ s2.2 ++ s3.2 }

/-- Source `reload`: `load_config(1)` between lock and unlock. -/
def reload (h : Host) (g : Globals) : LoadResult :=
  load_config h 1 g

/-! ## Dispatch -/

/-- Outcome of `write_cdr`: return value, the storage writes issued (engine
name and field sequence of each `ast_store_realtime_fields` call), log. -/
structure DispatchResult where
  ret : Int
  writes : List (CStr × List ast_variable)
  log : List LogEntry
deriving DecidableEq, Repr

/-- The `for (; var; var = var->next)` loop of `write_cdr`. `var` runs over
`fields`; `first` is the chain of values built so far (the local `values`
points at its last node); `subst_buf` is the shared substitution buffer. The
result is the finished chain and the last content of the buffer. -/
def write_cdr_loop (h : Host) (dummy : ast_channel) :
    List ast_variable → List ast_variable → CStr → List ast_variable × CStr
  | [], first, subst_buf => (first, subst_buf)
  | var :: next, first, subst_buf =>
    let subst_buf1 :=
      pbx_substitute_variables_helper h dummy var.value subst_buf (sizeof_subst_buf - 1)
    let node := ast_variable_new var.name subst_buf1 []
    let first1 := match first with
      | [] => [node]
      | _ :: _ => first ++ [node]
    write_cdr_loop h dummy next first1 subst_buf1

/-- Lines 159 to 168 of `write_cdr`: hand the finished chain `first` to the
storage engine named by `RT_Engine`, or complain when there is none. -/
def write_cdr_store (h : Host) (RT_Engine : CStr) (first : List ast_variable)
    (log0 : List LogEntry) : DispatchResult :=
  match first with
  | [] =>
    { ret := 0, writes := [],
      log := log0 ++ [ast_log LogLevel.LOG_ERROR
        "%s - No data for send to engine %s. Wat??"] }
  | _ :: _ =>
    if h.ast_store_realtime_fields RT_Engine first < 0 then
      { ret := 0, writes := [(RT_Engine, first)],
        log := log0 ++ [ast_log LogLevel.LOG_ERROR
          "%s - Error write CDR via realtime in engine %s"] }
    else
      { ret := 0, writes := [(RT_Engine, first)],
        log := log0 ++ [ast_verb "%s - write CDR via realtime in engine %s OK"] }

/-- Source `write_cdr`, run without interference: every read of the module
state sees the same `g`. The mutex is part of the interleaving model further
down. -/
def write_cdr (h : Host) (g : Globals) (cdr : Option ast_cdr) : DispatchResult :=
  if g.fields = [] then
    { ret := 0, writes := [],
      log := [ast_log LogLevel.LOG_ERROR
        "CDR Realtime - no fields for write in engine, skip CDR update"] }
  else
  match cdr with
  | none =>
    { ret := 0, writes := [],
      log := [ast_log LogLevel.LOG_WARNING "CDR Realtime - no CDR, skip"] }
  | some cdr =>
    if g.FilterCDR ≠ 0 ∧ cdr.amaflags ≠ h.AST_AMA_BILLING then
      { ret := 0, writes := [],
        log := [ast_verb "%s - billing flag is %s",
                ast_verb "%s - skip write CDR in engine %s - non billing record"] }
    else
    let log0 : List LogEntry :=
      if g.FilterCDR ≠ 0 then [ast_verb "%s - billing flag is %s"] else []
    match h.ast_dummy_channel_alloc with
    | none =>
      { ret := 0, writes := [],
        log := log0 ++ [ast_log LogLevel.LOG_ERROR
          "Unable to allocate channel for variable subsitution."] }
    | some dummy0 =>
      -- ast_channel_cdr_set(dummy, ast_cdr_dup(cdr))
      let dummy : ast_channel := { dummy0 with cdr := some cdr }
      let first := (write_cdr_loop h dummy g.fields [] []).1
      write_cdr_store h g.RT_Engine first log0

/-! ## Interleaving model: `write_cdr` and `reload` as threads

Each call is cut into steps at the source lines where it reads or writes the
module state or touches the mutex. A step runs without interruption; between
two steps of one thread any other thread may run. A thread that asks for the
mutex while another thread holds it does not advance. -/

/-- The mutex `lock` (recursive, as `AST_MUTEX_DEFINE_STATIC` makes it): the
thread that holds it, if any, and how many times it holds it. -/
structure Mutex where
  owner : Option Nat
  depth : Nat
deriving DecidableEq, Repr

/-- The mutex held by nobody. -/
def Mutex.free : Mutex := { owner := none, depth := 0 }

/-- Host routine `ast_mutex_lock` called by thread `tid`: the mutex after the
call, or `none` when another thread holds it and `tid` has to wait. -/
def ast_mutex_lock (m : Mutex) (tid : Nat) : Option Mutex :=
  match m.owner with
  | none => some { owner := some tid, depth := 1 }
  | some o => if o = tid then some { m with depth := m.depth + 1 } else none

/-- Host routine `ast_mutex_unlock` called by the holder. -/
def ast_mutex_unlock (m : Mutex) : Mutex :=
  if m.depth ≤ 1 then Mutex.free else { m with depth := m.depth - 1 }

/-- Where a call of `write_cdr` stands: the source line it executes next,
with the locals that are live there, or its return value together with the
storage writes it issued. -/
inductive WritePc where
  | line116 (cdr : Option ast_cdr)
  | line122 (cdr : Option ast_cdr)
  | line127 (cdr : ast_cdr)
  | line138 (cdr : ast_cdr)
  | line145 (dummy : ast_channel)
  | line146 (dummy : ast_channel)
  | line157 (first : List ast_variable)
  | line159 (first : List ast_variable)
  | returned (ret : Int) (writes : List (CStr × List ast_variable))
deriving DecidableEq, Repr

/-- One step of a `write_cdr` call run by thread `tid`. It never changes the
module state `g`; it may change the mutex. -/
def write_cdr_step (h : Host) (tid : Nat) (g : Globals) (m : Mutex) :
    WritePc → Mutex × WritePc
  -- if(!fields) return 0;
  | WritePc.line116 cdr =>
    if g.fields = [] then (m, WritePc.returned 0 []) else (m, WritePc.line122 cdr)
  -- if(!cdr) return 0;
  | WritePc.line122 none => (m, WritePc.returned 0 [])
  | WritePc.line122 (some cdr) => (m, WritePc.line127 cdr)
  -- if(FilterCDR){ if(cdr->amaflags != AST_AMA_BILLING) return 0; }
  | WritePc.line127 cdr =>
    if g.FilterCDR ≠ 0 ∧ cdr.amaflags ≠ h.AST_AMA_BILLING then (m, WritePc.returned 0 [])
    else (m, WritePc.line138 cdr)
  -- dummy=ast_dummy_channel_alloc(); if(dummy) ast_channel_cdr_set(..) else return 0
  | WritePc.line138 cdr =>
    match h.ast_dummy_channel_alloc with
    | none => (m, WritePc.returned 0 [])
    | some dummy0 => (m, WritePc.line145 { dummy0 with cdr := some cdr })
  -- ast_mutex_lock(&lock);
  | WritePc.line145 dummy =>
    match ast_mutex_lock m tid with
    | none => (m, WritePc.line145 dummy)
    | some m1 => (m1, WritePc.line146 dummy)
  -- var=fields; for (; var; var = var->next) { .. }
  | WritePc.line146 dummy =>
    (m, WritePc.line157 (write_cdr_loop h dummy g.fields [] []).1)
  -- ast_mutex_unlock(&lock);
  | WritePc.line157 first => (ast_mutex_unlock m, WritePc.line159 first)
  -- if(first){ ast_store_realtime_fields(RT_Engine,first) .. } return 0;
  | WritePc.line159 first =>
    (m, WritePc.returned (write_cdr_store h g.RT_Engine first []).ret
      (write_cdr_store h g.RT_Engine first []).writes)
  | WritePc.returned ret writes => (m, WritePc.returned ret writes)

/-- Where a call of `reload` stands: the source line it executes next (206
and 208 are in `reload`, the others in `load_config(1)`), or its return
value. -/
inductive ReloadPc where
  | line206
  | line50
  | line58 (cfg : ast_config)
  | line60 (cfg : ast_config)
  | line62 (cfg : ast_config)
  | line71 (cfg : ast_config)
  | line80 (cfg : ast_config)
  | line94
  | line208 (res : Int)
  | returned (res : Int)

/-- One step of a `reload` call run by thread `tid`. -/
def reload_step (h : Host) (tid : Nat) (g : Globals) (m : Mutex) :
    ReloadPc → Globals × Mutex × ReloadPc
  -- reload: ast_mutex_lock(&lock);
  | ReloadPc.line206 =>
    match ast_mutex_lock m tid with
    | none => (g, m, ReloadPc.line206)
    | some m1 => (g, m1, ReloadPc.line50)
  -- cfg = ast_config_load(config_file, config_flags) and the status tests
  | ReloadPc.line50 =>
    match h.ast_config_load config_file (decide ((1 : Int) ≠ 0)) with
    | ConfigLoad.CONFIG_STATUS_FILEMISSING => (g, m, ReloadPc.line208 (-1))
    | ConfigLoad.CONFIG_STATUS_FILEINVALID => (g, m, ReloadPc.line208 (-1))
    | ConfigLoad.CONFIG_STATUS_FILEUNCHANGED => (g, m, ReloadPc.line208 0)
    | ConfigLoad.cfg cfg => (g, m, ReloadPc.line58 cfg)
  -- if(reload){ast_mutex_lock(&lock);}
  | ReloadPc.line58 cfg =>
    match ast_mutex_lock m tid with
    | none => (g, m, ReloadPc.line58 cfg)
    | some m1 => (g, m1, ReloadPc.line60 cfg)
  -- free_config(0);
  | ReloadPc.line60 cfg => ((free_config 0 g).1, m, ReloadPc.line62 cfg)
  -- engine
  | ReloadPc.line62 cfg => ((load_config_engine cfg g).1, m, ReloadPc.line71 cfg)
  -- filter
  | ReloadPc.line71 cfg => ((load_config_filter h cfg g).1, m, ReloadPc.line80 cfg)
  -- columns
  | ReloadPc.line80 cfg => ((load_config_columns cfg g).1, m, ReloadPc.line94)
  -- if(reload){ast_mutex_unlock(&lock);} ast_config_destroy(cfg); return 0;
  | ReloadPc.line94 => (g, ast_mutex_unlock m, ReloadPc.line208 0)
  -- reload: ast_mutex_unlock(&lock); return res;
  | ReloadPc.line208 res => (g, ast_mutex_unlock m, ReloadPc.returned res)
  | ReloadPc.returned res => (g, m, ReloadPc.returned res)

/-- A thread of the process: a `write_cdr` call or a `reload` call. -/
inductive Thread where
  | write_cdr (pc : WritePc)
  | reload (pc : ReloadPc)

/-- The process: module state, mutex, and the threads by number. -/
structure Proc where
  globals : Globals
  lock : Mutex
  threads : List Thread

/-- The process at the start: module state `g`, the mutex free, the given
calls not yet begun. -/
def Proc.start (g : Globals) (threads : List Thread) : Proc :=
  { globals := g, lock := Mutex.free, threads := threads }

/-- Let thread `tid` take its next step. -/
def Proc.step (h : Host) (p : Proc) (tid : Nat) : Proc :=
  match p.threads[tid]? with
  | none => p
  | some (Thread.write_cdr pc) =>
    let r := write_cdr_step h tid p.globals p.lock pc
    { p with lock := r.1, threads := p.threads.set tid (Thread.write_cdr r.2) }
  | some (Thread.reload pc) =>
    let r := reload_step h tid p.globals p.lock pc
    { globals := r.1, lock := r.2.1, threads := p.threads.set tid (Thread.reload r.2.2) }

/-- Run the threads in the order the schedule names them, one step each. -/
def Proc.run (h : Host) (p : Proc) (schedule : List Nat) : Proc :=
  schedule.foldl (Proc.step h) p

/-- What the `write_cdr` call of thread `tid` returned and which storage
writes it issued; `none` while it has not returned. -/
def Proc.dispatched (p : Proc) (tid : Nat) : Option (Int × List (CStr × List ast_variable)) :=
  match p.threads[tid]? with
  | some (Thread.write_cdr (WritePc.returned ret writes)) => some (ret, writes)
  | _ => none

/-- What the `reload` call of thread `tid` returned; `none` while it has not
returned. -/
def Proc.reloaded (p : Proc) (tid : Nat) : Option Int :=
  match p.threads[tid]? with
  | some (Thread.reload (ReloadPc.returned res)) => some res
  | _ => none

/-- What a `write_cdr` call gives when it runs alone on module state `g`. -/
def dispatchOn (h : Host) (g : Globals) (cdr : Option ast_cdr) :
    Option (Int × List (CStr × List ast_variable)) :=
  some ((write_cdr h g cdr).ret, (write_cdr h g cdr).writes)

/-- One `write_cdr` call (thread 0) and one `reload` call (thread 1). -/
def oneDispatchOneReload (g : Globals) (cdr : Option ast_cdr) : Proc :=
  Proc.start g [Thread.write_cdr (WritePc.line116 cdr), Thread.reload ReloadPc.line206]

/-- Schedule: `write_cdr` runs up to and including its unlock (line 157),
then the whole `reload` runs, then `write_cdr` does its store (line 159). -/
def scheduleStoreAfterReload : List Nat :=
  List.replicate 7 0 ++ List.replicate 9 1 ++ [0]

/-- Schedule: `write_cdr` runs its three unlocked tests (lines 116 to 127),
then the whole `reload` runs, then `write_cdr` runs to its end. -/
def scheduleFilterBeforeReload : List Nat :=
  List.replicate 3 0 ++ List.replicate 9 1 ++ List.replicate 5 0

/-- Schedule: `reload` runs up to and including `free_config` (line 60), then
`write_cdr` runs its first test (line 116), then `reload` finishes. -/
def scheduleTestDuringReload : List Nat :=
  List.replicate 4 1 ++ [0] ++ List.replicate 5 1

/-! ## The evaluator of the specification -/

/-- The TemplateEvaluator of the specification, `evaluate(template, record)`:
the substitution of `template` against `record`, cut to the size of the
substitution buffer minus one. Written after the words of the specification,
to be compared with what `write_cdr` dispatches. -/
def evaluate (h : Host) (template : CStr) (record : ast_cdr) : CStr :=
  (h.substitute { cdr := some record } template).take (sizeof_subst_buf - 1)

/-! ## Concrete inputs used to exercise the theorems -/

/-- A sample substitution: a template that is exactly one placeholder
`$\x7bname\x7d` yields the value of `name` in the record (empty when unset);
any other template is literal text. -/
def demoSubstitute (c : ast_channel) (template : CStr) : CStr :=
  match template with
  | '$' :: '{' :: rest =>
    if rest.getLast? = some '}' then
      match c.cdr with
      | some r => ((r.varshead.find? (fun kv => kv.1 = rest.dropLast)).map Prod.snd).getD []
      | none => []
    else template
  | _ => template

/-- A sample configuration: engine `cdr_table`, filter `yes`, two columns. -/
def demoConfig : ast_config :=
  { ast_variable_retrieve := fun cat var =>
      if cat = "general".toList ∧ var = "engine".toList then some "cdr_table".toList
      else if cat = "general".toList ∧ var = "filter".toList then some "yes".toList
      else none
    ast_variable_browse := fun cat =>
      if cat = "columns".toList then
        [ast_variable_new "dst".toList "$\x7bdst\x7d".toList [],
         ast_variable_new "src".toList "$\x7bsrc\x7d".toList []]
      else [] }

/-- A sample host: `AST_AMA_BILLING = 2`, the usual truthy words, a load that
yields `demoConfig`, a dummy channel that allocates, a store that succeeds. -/
def demoHost : Host :=
  { AST_AMA_BILLING := 2
    ast_true := fun s =>
      if s ∈ ["yes".toList, "true".toList, "y".toList, "t".toList, "1".toList, "on".toList]
      then -1 else 0
    ast_config_load := fun _ _ => ConfigLoad.cfg demoConfig
    ast_dummy_channel_alloc := some { cdr := none }
    substitute := demoSubstitute
    ast_store_realtime_fields := fun _ _ => 0 }

/-- A billing record (`amaflags = 2`) with `dst = 12345`. -/
def billingRecord : ast_cdr :=
  { channel := "SIP/100-00000001".toList, amaflags := 2,
    varshead := [("dst".toList, "12345".toList), ("src".toList, "100".toList)] }

/-- The same record classified as documentation (`amaflags = 3`). -/
def otherRecord : ast_cdr := { billingRecord with amaflags := 3 }

/-- The one-field table of the specification: `dst` with template
`$\x7bdst\x7d`. -/
def dstFields : List ast_variable :=
  [ast_variable_new "dst".toList "$\x7bdst\x7d".toList []]

/-- A module state with engine `CDR`, the filter on and the one-field table. -/
def demoGlobals : Globals :=
  { RT_Engine := "CDR".toList, fields := dstFields, FilterCDR := 1 }

/-- A module state with engine `CDR`, the filter off and the one-field table. -/
def unfilteredGlobals : Globals := { demoGlobals with FilterCDR := 0 }

/-- A module state with engine `CDR`, the filter off and two fields, `dst`
then `src`. -/
def twoFieldGlobals : Globals :=
  { RT_Engine := "CDR".toList,
    fields := [ast_variable_new "dst".toList "$\x7bdst\x7d".toList [],
               ast_variable_new "src".toList "$\x7bsrc\x7d".toList []],
    FilterCDR := 0 }

/-- A module state whose single field has a literal template of 2000 bytes. -/
def longTemplateGlobals : Globals :=
  { RT_Engine := "CDR".toList,
    fields := [ast_variable_new "big".toList (List.replicate 2000 'x') []],
    FilterCDR := 0 }

/-- The sample host when the dummy channel cannot be allocated. -/
def noDummyHost : Host := { demoHost with ast_dummy_channel_alloc := none }

/-- The sample host when the storage engine reports failure. -/
def failingStoreHost : Host := { demoHost with ast_store_realtime_fields := fun _ _ => -1 }

/-- The sample host when the configuration source is unchanged. -/
def unchangedHost : Host :=
  { demoHost with ast_config_load := fun _ _ => ConfigLoad.CONFIG_STATUS_FILEUNCHANGED }

/-- The sample host when the configuration source is missing. -/
def missingHost : Host :=
  { demoHost with ast_config_load := fun _ _ => ConfigLoad.CONFIG_STATUS_FILEMISSING }

/-- A configuration with no `general` keys and no `columns`. -/
def emptyConfig : ast_config :=
  { ast_variable_retrieve := fun _ _ => none
    ast_variable_browse := fun _ => [] }

/-- The sample host when the configuration source is `emptyConfig`. -/
def emptyConfigHost : Host :=
  { demoHost with ast_config_load := fun _ _ => ConfigLoad.cfg emptyConfig }

/-- An engine name of 40 bytes. -/
def longEngineName : CStr := List.replicate 40 'e'

/-- A configuration whose `engine` key is `longEngineName`. -/
def longEngineConfig : ast_config :=
  { ast_variable_retrieve := fun cat var =>
      if cat = "general".toList ∧ var = "engine".toList then some longEngineName else none
    ast_variable_browse := fun _ => [] }

/-- The sample host when the configuration source is `longEngineConfig`. -/
def longEngineHost : Host :=
  { demoHost with ast_config_load := fun _ _ => ConfigLoad.cfg longEngineConfig }

/-! ## Lemmas on the two chain-building loops -/

/-- The loop of `load_config` appends one node per `columns` entry, in order,
to the chain it starts from. -/
theorem load_columns_fst (vars fields : List ast_variable) (log : List LogEntry) :
    (load_columns vars fields log).1 =
      fields ++ vars.map (fun v => ast_variable_new v.name v.value []) := by
  induction vars generalizing fields log with
  | nil => simp [load_columns]
  | cons v rest ih =>
    cases fields with
    | nil => simp [load_columns, ih]
    | cons f fs => simp [load_columns, ih]

/-- The loop of `write_cdr` appends one node per field, in order, whose value
is the bounded substitution of that field alone. -/
theorem write_cdr_loop_fst (h : Host) (dummy : ast_channel)
    (vars first : List ast_variable) (subst_buf : CStr) :
    (write_cdr_loop h dummy vars first subst_buf).1 =
      first ++ vars.map (fun v =>
        ast_variable_new v.name ((h.substitute dummy v.value).take (sizeof_subst_buf - 1)) []) := by
  induction vars generalizing first subst_buf with
  | nil => simp [write_cdr_loop]
  | cons v rest ih =>
    cases first with
    | nil => simp [write_cdr_loop, ih, pbx_substitute_variables_helper]
    | cons f fs => simp [write_cdr_loop, ih, pbx_substitute_variables_helper]

/-- The store step returns 0 on both outcomes of the storage engine. -/
theorem write_cdr_store_ret (h : Host) (engine : CStr) (first : List ast_variable)
    (log0 : List LogEntry) : (write_cdr_store h engine first log0).ret = 0 := by
  unfold write_cdr_store
  repeat' first
    | rfl
    | split

/-- The store step issues the one write of a non-empty chain, and none of an
empty one. -/
theorem write_cdr_store_writes (h : Host) (engine : CStr) (first : List ast_variable)
    (log0 : List LogEntry) :
    (write_cdr_store h engine first log0).writes =
      if first = [] then [] else [(engine, first)] := by
  unfold write_cdr_store
  cases first with
  | nil => rfl
  | cons f fs =>
    simp only
    split_ifs <;> first | rfl | simp_all

/-- When the table is non-empty, the record present and passing the filter,
and the dummy channel allocated, `write_cdr` issues exactly the one write
described by the loop. -/
theorem write_cdr_writes (h : Host) (g : Globals) (cdr : ast_cdr) (dummy : ast_channel)
    (hne : g.fields ≠ [])
    (hd : h.ast_dummy_channel_alloc = some dummy)
    (hpass : g.FilterCDR = 0 ∨ cdr.amaflags = h.AST_AMA_BILLING) :
    (write_cdr h g (some cdr)).writes =
      [(g.RT_Engine, g.fields.map (fun v =>
        ast_variable_new v.name
          ((h.substitute { cdr := some cdr } v.value).take (sizeof_subst_buf - 1)) []))] := by
  have hf : ¬ (g.FilterCDR ≠ 0 ∧ cdr.amaflags ≠ h.AST_AMA_BILLING) := by
    rintro ⟨h1, h2⟩
    rcases hpass with hp | hp
    · exact h1 hp
    · exact h2 hp
  obtain ⟨f, fs, hfs⟩ : ∃ f fs, g.fields = f :: fs := by
    cases hg : g.fields with
    | nil => exact absurd hg hne
    | cons f fs => exact ⟨f, fs, rfl⟩
  unfold write_cdr
  rw [if_neg hne]
  simp only [hd]
  rw [if_neg hf]
  simp only [write_cdr_loop_fst, List.nil_append, write_cdr_store_writes, hfs, List.map_cons]
  rfl

/-- Every path of `write_cdr` returns 0. -/
theorem write_cdr_ret (h : Host) (g : Globals) (cdr : Option ast_cdr) :
    (write_cdr h g cdr).ret = 0 := by
  unfold write_cdr
  repeat' first
    | rfl
    | exact write_cdr_store_ret _ _ _ _
    | split

/-- The module state after a load that obtained a parsed configuration: it
is determined by the configuration alone, not by the state before. -/
theorem load_config_loaded (h : Host) (reload : Int) (g : Globals) (cfg : ast_config)
    (hl : h.ast_config_load config_file (decide (reload ≠ 0)) = ConfigLoad.cfg cfg) :
    (load_config h reload g).ret = 0 ∧
    (load_config h reload g).globals =
      { RT_Engine :=
          match cfg.ast_variable_retrieve "general".toList "engine".toList with
          | some temp => ast_copy_string temp (sizeof_RT_Engine - 1)
          | none => ast_copy_string "CDR".toList (sizeof_RT_Engine - 1)
        fields :=
          (cfg.ast_variable_browse "columns".toList).map
            (fun v => ast_variable_new v.name v.value [])
        FilterCDR :=
          match cfg.ast_variable_retrieve "general".toList "filter".toList with
          | some temp => if h.ast_true temp ≠ 0 then 1 else 0
          | none => 0 } := by
  unfold load_config
  rw [hl]
  refine ⟨rfl, ?_⟩
  have hfree : (free_config 0 g).1.fields = [] := by
    unfold free_config
    by_cases hf : g.fields = []
    · simp [hf]
    · simp [hf]
  dsimp only
  unfold load_config_columns load_config_filter load_config_engine
  dsimp only
  rw [load_columns_fst]
  generalize cfg.ast_variable_retrieve "general".toList "engine".toList = oe
  generalize cfg.ast_variable_retrieve "general".toList "filter".toList = ofl
  generalize cfg.ast_variable_browse "columns".toList = cols
  cases oe with
  | none =>
    cases ofl with
    | none => simp only [hfree, List.nil_append]
    | some t =>
      by_cases ht : h.ast_true t = 0
      · simp [ht, hfree]
      · simp [ht, hfree]
  | some e =>
    cases ofl with
    | none => simp only [hfree, List.nil_append]
    | some t =>
      by_cases ht : h.ast_true t = 0
      · simp [ht, hfree]
      · simp [ht, hfree]

/-! ## Dispatch: order, outcome, filter, empty table -/

/-- C1: for a non-empty field table, a present record that passes the filter
and a dummy channel that allocates, `write_cdr` issues exactly one storage
write, addressed to the active engine name; its sequence has as many entries
as the table, and entry `i` has the name of field `i` and the value
`evaluate` gives for the template of field `i` and the record, so the
sequence follows the order of the table whatever the record holds. -/
theorem write_cdr_dispatches_fields_in_order (h : Host) (g : Globals) (cdr : ast_cdr)
    (dummy : ast_channel)
    (hne : g.fields ≠ [])
    (hd : h.ast_dummy_channel_alloc = some dummy)
    (hpass : g.FilterCDR = 0 ∨ cdr.amaflags = h.AST_AMA_BILLING) :
    ∃ seq : List ast_variable,
      (write_cdr h g (some cdr)).writes = [(g.RT_Engine, seq)] ∧
      seq = g.fields.map (fun f => ast_variable_new f.name (evaluate h f.value cdr) []) ∧
      seq.length = g.fields.length ∧
      List.Forall₂ (fun f d => d.name = f.name ∧ d.value = evaluate h f.value cdr)
        g.fields seq := by
  refine ⟨_, write_cdr_writes h g cdr dummy hne hd hpass, rfl, by simp, ?_⟩
  rw [List.forall₂_map_right_iff, List.forall₂_same]
  intro f _
  exact ⟨rfl, rfl⟩

/-- C1 at a concrete input: the table `dst`, `src` and the sample record give
the one write `dst = 12345`, `src = 100` to engine `CDR`. -/
theorem write_cdr_dispatches_fields_in_order_witness :
    (write_cdr demoHost twoFieldGlobals (some billingRecord)).writes =
      [("CDR".toList, [ast_variable_new "dst".toList "12345".toList [],
                       ast_variable_new "src".toList "100".toList []])] := by
  obtain ⟨seq, hw, hs, -, -⟩ := write_cdr_dispatches_fields_in_order demoHost twoFieldGlobals
    billingRecord { cdr := none } (by decide) rfl (Or.inl rfl)
  rw [hw, hs]
  decide

/-- C2: `write_cdr` returns 0 for every module state, every record (present
or absent) and every host, hence for every outcome of the storage write,
failure included. -/
theorem write_cdr_always_returns_success (h : Host) (g : Globals) (cdr : Option ast_cdr) :
    (write_cdr h g cdr).ret = 0 :=
  write_cdr_ret h g cdr

/-- C3 as stated fails: with the filter off, a non-empty table and a present
record, no storage write is issued when the dummy channel cannot be
allocated. -/
theorem filter_off_without_dummy_channel_counterexample :
    unfilteredGlobals.fields ≠ [] ∧ unfilteredGlobals.FilterCDR = 0 ∧
    (write_cdr noDummyHost unfilteredGlobals (some billingRecord)).writes = [] := by
  decide

/-- C3 amended: for a non-empty field table and a present record. When the
dummy channel allocates: with the filter off there is one storage write with
a non-empty sequence whatever the billing classification, and with the
filter on there is a storage write exactly when the classification is the
billing value. With the filter on, a non-billing record gives no write and
return value 0. With the filter on, the dummy channel allocated and the one
field `dst` with template `$\x7bdst\x7d`, a billing record for which that
template substitutes to `12345` gives exactly one write, with the sequence
`dst = 12345`. -/
theorem write_cdr_filter (h : Host) (g : Globals) (cdr : ast_cdr)
    (hne : g.fields ≠ []) :
    (∀ dummy, h.ast_dummy_channel_alloc = some dummy →
      (g.FilterCDR = 0 →
        ∃ seq, seq ≠ [] ∧ (write_cdr h g (some cdr)).writes = [(g.RT_Engine, seq)]) ∧
      (g.FilterCDR ≠ 0 →
        ((write_cdr h g (some cdr)).writes ≠ [] ↔ cdr.amaflags = h.AST_AMA_BILLING))) ∧
    (g.FilterCDR ≠ 0 → cdr.amaflags ≠ h.AST_AMA_BILLING →
      (write_cdr h g (some cdr)).writes = [] ∧ (write_cdr h g (some cdr)).ret = 0) ∧
    (∀ dummy, h.ast_dummy_channel_alloc = some dummy →
      g.FilterCDR ≠ 0 → g.fields = dstFields → cdr.amaflags = h.AST_AMA_BILLING →
      h.substitute { cdr := some cdr } "$\x7bdst\x7d".toList = "12345".toList →
      (write_cdr h g (some cdr)).writes =
        [(g.RT_Engine, [ast_variable_new "dst".toList "12345".toList []])]) := by
  have hskip : g.FilterCDR ≠ 0 → cdr.amaflags ≠ h.AST_AMA_BILLING →
      (write_cdr h g (some cdr)).writes = [] := by
    intro hf hb
    unfold write_cdr
    rw [if_neg hne]
    simp only
    rw [if_pos ⟨hf, hb⟩]
  refine ⟨fun dummy hd => ⟨?_, ?_⟩, ?_, ?_⟩
  · intro hf
    refine ⟨_, ?_, write_cdr_writes h g cdr dummy hne hd (Or.inl hf)⟩
    simpa using hne
  · intro hf
    constructor
    · intro hw
      by_contra hb
      exact hw (hskip hf hb)
    · intro hb
      rw [write_cdr_writes h g cdr dummy hne hd (Or.inr hb)]
      simp
  · intro hf hb
    exact ⟨hskip hf hb, write_cdr_ret h g (some cdr)⟩
  · intro dummy hd _ hfields hb hsub
    rw [write_cdr_writes h g cdr dummy hne hd (Or.inr hb), hfields]
    show [(g.RT_Engine, [ast_variable_new "dst".toList
      ((h.substitute { cdr := some cdr } "$\x7bdst\x7d".toList).take (sizeof_subst_buf - 1)) []])] = _
    rw [hsub]
    rfl

/-- C3 amended at a concrete input: filter on, one field `dst`; the billing
record with `dst = 12345` gives the one write `dst = 12345`, the same record
classified otherwise gives none and returns 0. -/
theorem write_cdr_filter_witness :
    demoGlobals.fields ≠ [] ∧
    (write_cdr demoHost demoGlobals (some billingRecord)).writes =
      [("CDR".toList, [ast_variable_new "dst".toList "12345".toList []])] ∧
    (write_cdr demoHost demoGlobals (some otherRecord)).writes = [] ∧
    (write_cdr demoHost demoGlobals (some otherRecord)).ret = 0 :=
  ⟨by decide,
   (write_cdr_filter demoHost demoGlobals billingRecord (by decide)).2.2
      { cdr := none } rfl (by decide) rfl rfl (by decide),
   (write_cdr_filter demoHost demoGlobals otherRecord (by decide)).2.1
      (by decide) (by decide)⟩

/-- C4: against a field table with zero fields, `write_cdr` returns 0 and
issues no storage write, for every host, engine name, filter flag and record
(present or absent). -/
theorem write_cdr_empty_table (h : Host) (engine : CStr) (filter : Int)
    (cdr : Option ast_cdr) :
    (write_cdr h { RT_Engine := engine, fields := [], FilterCDR := filter } cdr).ret = 0 ∧
    (write_cdr h { RT_Engine := engine, fields := [], FilterCDR := filter } cdr).writes = [] := by
  constructor <;> simp [write_cdr]

/-! ## Configuration loading -/

/-- C5: from every module state, a load whose source is unchanged returns 0
(in particular `load_config` with `reload = 1`, and `reload` itself), a load
or reload whose source is missing or invalid returns -1, and in all these
cases the engine name, the filter flag and the field chain are what they
were before the call. -/
theorem load_config_unchanged_or_invalid_keeps_state (h : Host) (reload0 : Int)
    (g : Globals) :
    (h.ast_config_load config_file (decide (reload0 ≠ 0)) =
        ConfigLoad.CONFIG_STATUS_FILEUNCHANGED →
      (load_config h reload0 g).ret = 0 ∧ (load_config h reload0 g).globals = g) ∧
    (h.ast_config_load config_file true = ConfigLoad.CONFIG_STATUS_FILEUNCHANGED →
      (load_config h 1 g).ret = 0 ∧ (load_config h 1 g).globals = g ∧
      (reload h g).ret = 0 ∧ (reload h g).globals = g) ∧
    (h.ast_config_load config_file (decide (reload0 ≠ 0)) =
        ConfigLoad.CONFIG_STATUS_FILEMISSING ∨
     h.ast_config_load config_file (decide (reload0 ≠ 0)) =
        ConfigLoad.CONFIG_STATUS_FILEINVALID →
      (load_config h reload0 g).ret = -1 ∧ (load_config h reload0 g).globals = g) := by
  refine ⟨?_, ?_, ?_⟩
  · intro hu
    unfold load_config
    rw [hu]
    exact ⟨rfl, rfl⟩
  · intro hu
    have h1 : (decide ((1 : Int) ≠ 0)) = true := by decide
    unfold reload load_config
    rw [h1, hu]
    exact ⟨rfl, rfl, rfl, rfl⟩
  · rintro (hm | hi)
    · unfold load_config
      rw [hm]
      exact ⟨rfl, rfl⟩
    · unfold load_config
      rw [hi]
      exact ⟨rfl, rfl⟩

/-- C5 at concrete inputs: an unchanged source on reload, and a missing
source on first load, both leave the sample state as it was. -/
theorem load_config_unchanged_or_invalid_keeps_state_witness :
    ((reload unchangedHost demoGlobals).ret = 0 ∧
      (reload unchangedHost demoGlobals).globals = demoGlobals) ∧
    ((load_config missingHost 0 demoGlobals).ret = -1 ∧
      (load_config missingHost 0 demoGlobals).globals = demoGlobals) :=
  ⟨((load_config_unchanged_or_invalid_keeps_state unchangedHost 1 demoGlobals).2.1 rfl).2.2,
   (load_config_unchanged_or_invalid_keeps_state missingHost 0 demoGlobals).2.2 (Or.inl rfl)⟩

/-- C6: from every module state, a load that obtains a parsed configuration
returns 0 and leaves as field chain exactly one node per entry of the
`columns` section, with the name and value of that entry, in the order of
the section; nothing of the chain that was active before remains, and a
section without entries (or no such section) leaves the empty chain. -/
theorem load_config_replaces_fields (h : Host) (reload0 : Int) (g : Globals)
    (cfg : ast_config)
    (hl : h.ast_config_load config_file (decide (reload0 ≠ 0)) = ConfigLoad.cfg cfg) :
    (load_config h reload0 g).ret = 0 ∧
    (load_config h reload0 g).globals.fields =
      (cfg.ast_variable_browse "columns".toList).map
        (fun v => ast_variable_new v.name v.value []) ∧
    (cfg.ast_variable_browse "columns".toList = [] →
      (load_config h reload0 g).globals.fields = []) := by
  obtain ⟨hr, hg⟩ := load_config_loaded h reload0 g cfg hl
  refine ⟨hr, ?_, ?_⟩
  · rw [hg]
  · intro he
    rw [hg]
    simp only [he, List.map_nil]

/-- C6 at concrete inputs: reloading the sample configuration over the
one-field table leaves the two columns `dst`, `src`; loading a configuration
without columns leaves no field. -/
theorem load_config_replaces_fields_witness :
    (load_config demoHost 1 demoGlobals).globals.fields = twoFieldGlobals.fields ∧
    (load_config emptyConfigHost 1 demoGlobals).globals.fields = [] :=
  ⟨(load_config_replaces_fields demoHost 1 demoGlobals demoConfig rfl).2.1,
   (load_config_replaces_fields emptyConfigHost 1 demoGlobals emptyConfig rfl).2.2 rfl⟩

/-- C7 as stated fails: with an `engine` value of 40 bytes the load succeeds
and the active engine name differs from the configured value. -/
theorem engine_name_long_value_counterexample :
    longEngineConfig.ast_variable_retrieve "general".toList "engine".toList
      = some longEngineName ∧
    (load_config longEngineHost 0 Globals.init).ret = 0 ∧
    (load_config longEngineHost 0 Globals.init).globals.RT_Engine ≠ longEngineName := by
  decide

/-- C7 amended: after a load that obtains a parsed configuration, the active
engine name equals the value of the `engine` key of `general` when the key is
present and its value is at most 28 bytes long; a longer value is kept as a
leading part of it that fits `RT_Engine` with its terminator; the name is
`CDR` when the key is absent. -/
theorem load_config_engine_name (h : Host) (reload0 : Int) (g : Globals)
    (cfg : ast_config)
    (hl : h.ast_config_load config_file (decide (reload0 ≠ 0)) = ConfigLoad.cfg cfg) :
    (∀ v, cfg.ast_variable_retrieve "general".toList "engine".toList = some v →
      (v.length ≤ 28 → (load_config h reload0 g).globals.RT_Engine = v) ∧
      (load_config h reload0 g).globals.RT_Engine <+: v ∧
      (load_config h reload0 g).globals.RT_Engine.length < sizeof_RT_Engine) ∧
    (cfg.ast_variable_retrieve "general".toList "engine".toList = none →
      (load_config h reload0 g).globals.RT_Engine = "CDR".toList) := by
  obtain ⟨-, hg⟩ := load_config_loaded h reload0 g cfg hl
  constructor
  · intro v hv
    have he : (load_config h reload0 g).globals.RT_Engine = v.take 28 := by
      rw [hg]
      simp only [hv]
      rfl
    rw [he]
    refine ⟨fun hlen => List.take_of_length_le hlen, List.take_prefix 28 v, ?_⟩
    have := List.length_take_le 28 v
    simp only [sizeof_RT_Engine]
    omega
  · intro hn
    rw [hg]
    simp only [hn]
    rfl

/-- C7 amended at concrete inputs: the sample configuration gives engine
`cdr_table`, a configuration without the key gives `CDR`. -/
theorem load_config_engine_name_witness :
    (load_config demoHost 1 demoGlobals).globals.RT_Engine = "cdr_table".toList ∧
    (load_config emptyConfigHost 0 demoGlobals).globals.RT_Engine = "CDR".toList :=
  ⟨((load_config_engine_name demoHost 1 demoGlobals demoConfig rfl).1
      "cdr_table".toList rfl).1 (by decide),
   (load_config_engine_name emptyConfigHost 0 demoGlobals emptyConfig rfl).2 rfl⟩

/-- C8: after a load that obtains a parsed configuration, the filter flag is
set exactly when the `filter` key of `general` is present with a truthy
value, whatever the flag was before; when set it is 1, otherwise 0. -/
theorem load_config_filter_flag (h : Host) (reload0 : Int) (g : Globals)
    (cfg : ast_config)
    (hl : h.ast_config_load config_file (decide (reload0 ≠ 0)) = ConfigLoad.cfg cfg) :
    ((load_config h reload0 g).globals.FilterCDR ≠ 0 ↔
      ∃ v, cfg.ast_variable_retrieve "general".toList "filter".toList = some v ∧
        h.ast_true v ≠ 0) ∧
    ((load_config h reload0 g).globals.FilterCDR = 1 ∨
      (load_config h reload0 g).globals.FilterCDR = 0) := by
  obtain ⟨-, hg⟩ := load_config_loaded h reload0 g cfg hl
  rw [hg]
  cases hv : cfg.ast_variable_retrieve "general".toList "filter".toList with
  | none => simp
  | some v =>
    by_cases ht : h.ast_true v = 0
    · simp [ht]
    · simp [ht]

/-- C8 at concrete inputs: the sample configuration (`filter = yes`) turns
the filter on from a state where it was off; a configuration without the key
turns off a filter that was on. -/
theorem load_config_filter_flag_witness :
    unfilteredGlobals.FilterCDR = 0 ∧
    (load_config demoHost 1 unfilteredGlobals).globals.FilterCDR ≠ 0 ∧
    demoGlobals.FilterCDR ≠ 0 ∧
    ¬ (load_config emptyConfigHost 1 demoGlobals).globals.FilterCDR ≠ 0 :=
  ⟨rfl,
   (load_config_filter_flag demoHost 1 unfilteredGlobals demoConfig rfl).1.2
      ⟨"yes".toList, rfl, by decide⟩,
   by decide,
   fun hne => by
    obtain ⟨v, hv, -⟩ :=
      (load_config_filter_flag emptyConfigHost 1 demoGlobals emptyConfig rfl).1.1 hne
    exact Option.noConfusion hv⟩

/-! ## Bounded substitution -/

/-- C9: whenever `write_cdr` dispatches (non-empty table, present record
passing the filter, dummy channel allocated) it returns 0 and issues one
write with one value per field, produced for every template and record. Each
value is at most 1023 bytes long (the 1024-byte buffer less its terminator):
it is the substituted template itself when that is at most 1023 bytes long,
and otherwise its first 1023 bytes. The chain built by the loop is the same
for every content the shared buffer may hold on entry, so no value depends
on what an earlier field left in the buffer. -/
theorem write_cdr_value_bounded (h : Host) (g : Globals) (cdr : ast_cdr)
    (dummy : ast_channel)
    (hne : g.fields ≠ [])
    (hd : h.ast_dummy_channel_alloc = some dummy)
    (hpass : g.FilterCDR = 0 ∨ cdr.amaflags = h.AST_AMA_BILLING) :
    (write_cdr h g (some cdr)).ret = 0 ∧
    ∃ seq : List ast_variable,
      (write_cdr h g (some cdr)).writes = [(g.RT_Engine, seq)] ∧
      List.Forall₂
        (fun f d =>
          d.value.length ≤ 1023 ∧
          ((h.substitute { cdr := some cdr } f.value).length ≤ 1023 →
            d.value = h.substitute { cdr := some cdr } f.value) ∧
          (1023 < (h.substitute { cdr := some cdr } f.value).length →
            d.value = (h.substitute { cdr := some cdr } f.value).take 1023 ∧
            d.value.length = 1023))
        g.fields seq ∧
      ∀ (first : List ast_variable) (buf buf0 : CStr),
        (write_cdr_loop h { cdr := some cdr } g.fields first buf).1 =
          (write_cdr_loop h { cdr := some cdr } g.fields first buf0).1 := by
  refine ⟨write_cdr_ret h g (some cdr), _,
    write_cdr_writes h g cdr dummy hne hd hpass, ?_, ?_⟩
  · rw [List.forall₂_map_right_iff, List.forall₂_same]
    intro f _
    show ((h.substitute { cdr := some cdr } f.value).take 1023).length ≤ 1023 ∧
      ((h.substitute { cdr := some cdr } f.value).length ≤ 1023 →
        (h.substitute { cdr := some cdr } f.value).take 1023 =
          h.substitute { cdr := some cdr } f.value) ∧
      (1023 < (h.substitute { cdr := some cdr } f.value).length →
        (h.substitute { cdr := some cdr } f.value).take 1023 =
          (h.substitute { cdr := some cdr } f.value).take 1023 ∧
        ((h.substitute { cdr := some cdr } f.value).take 1023).length = 1023)
    refine ⟨List.length_take_le 1023 _, fun hle => List.take_of_length_le hle,
      fun hlt => ⟨rfl, ?_⟩⟩
    rw [List.length_take]
    omega
  · intro first buf buf0
    rw [write_cdr_loop_fst, write_cdr_loop_fst]

set_option maxRecDepth 100000 in
/-- C9 at a concrete input: a literal template of 2000 bytes is dispatched as
a value of exactly 1023 bytes, in the one write to engine `CDR`. -/
theorem write_cdr_value_bounded_witness :
    ∃ d : ast_variable,
      (write_cdr demoHost longTemplateGlobals (some billingRecord)).writes =
        [("CDR".toList, [d])] ∧ d.value.length = 1023 := by
  obtain ⟨-, seq, hw, hall, -⟩ := write_cdr_value_bounded demoHost longTemplateGlobals
    billingRecord { cdr := none } (by decide) rfl (Or.inl rfl)
  have hfields : longTemplateGlobals.fields =
      [ast_variable_new "big".toList (List.replicate 2000 'x') []] := rfl
  rw [hfields] at hall
  cases hall with
  | cons hp htl =>
    cases htl
    refine ⟨_, hw, (hp.2.2 ?_).2⟩
    show 1023 < (List.replicate 2000 'x').length
    simp

/-! ## Interleavings of `write_cdr` and `reload` -/

/-- The step model agrees with `write_cdr`: a call that runs alone, from a
free mutex, returns after eight steps what `write_cdr` gives on the same
module state, and leaves the mutex free. -/
theorem write_cdr_steps_alone (h : Host) (g : Globals) (cdr : Option ast_cdr) :
    ((Proc.start g [Thread.write_cdr (WritePc.line116 cdr)]).run h
        [0, 0, 0, 0, 0, 0, 0, 0]).dispatched 0 = dispatchOn h g cdr ∧
    ((Proc.start g [Thread.write_cdr (WritePc.line116 cdr)]).run h
        [0, 0, 0, 0, 0, 0, 0, 0]).lock = Mutex.free := by
  by_cases hf : g.fields = []
  · simp [Proc.run, Proc.step, Proc.start, write_cdr_step, Proc.dispatched, dispatchOn,
      write_cdr, hf]
  · cases cdr with
    | none =>
      simp [Proc.run, Proc.step, Proc.start, write_cdr_step, Proc.dispatched, dispatchOn,
        write_cdr, hf]
    | some c =>
      by_cases hflt : g.FilterCDR ≠ 0 ∧ c.amaflags ≠ h.AST_AMA_BILLING
      · simp [Proc.run, Proc.step, Proc.start, write_cdr_step, Proc.dispatched, dispatchOn,
          write_cdr, hf, hflt]
      · cases hd : h.ast_dummy_channel_alloc with
        | none =>
          simp [Proc.run, Proc.step, Proc.start, write_cdr_step, Proc.dispatched, dispatchOn,
            write_cdr, hf, hflt, hd]
        | some d =>
          simp [Proc.run, Proc.step, Proc.start, write_cdr_step, Proc.dispatched, dispatchOn,
            write_cdr, hf, hflt, hd, ast_mutex_lock, ast_mutex_unlock, Mutex.free,
            write_cdr_store_ret, write_cdr_store_writes]

/-- The step model agrees with `reload`: a call that runs alone, from a free
mutex, returns after nine steps what `reload` returns, leaves the module
state `reload` leaves, and leaves the mutex free. -/
theorem reload_steps_alone (h : Host) (g : Globals) :
    ((Proc.start g [Thread.reload ReloadPc.line206]).run h
        [0, 0, 0, 0, 0, 0, 0, 0, 0]).reloaded 0 = some (reload h g).ret ∧
    ((Proc.start g [Thread.reload ReloadPc.line206]).run h
        [0, 0, 0, 0, 0, 0, 0, 0, 0]).globals = (reload h g).globals ∧
    ((Proc.start g [Thread.reload ReloadPc.line206]).run h
        [0, 0, 0, 0, 0, 0, 0, 0, 0]).lock = Mutex.free := by
  cases hl : h.ast_config_load config_file true <;>
    simp [Proc.run, Proc.step, Proc.start, reload_step, Proc.reloaded, reload, load_config,
      hl, ast_mutex_lock, ast_mutex_unlock, Mutex.free]

/-- C10 does not hold of the code. Start from engine `CDR`, filter off, one
field `dst`; the reload installs engine `cdr_table`, filter on, fields `dst`,
`src`. Three interleavings of one `write_cdr` call with that reload:

* the store runs after the reload (the engine name is read at line 160,
  after the unlock of line 157): the write goes to `cdr_table` with the
  one-field sequence of the old table, which is neither what the call gives
  on the old table nor what it gives on the new one;
* the filter test runs before the reload (line 127, before the lock of line
  145): a non-billing record, passed by the old flag, is written with the
  fields and engine of the new table, whose filter would have skipped it;
* the test of `fields` (line 116, outside the mutex) runs while the reload
  has emptied the chain: the record is dropped without a write, although the
  old and the new table both have fields. -/
theorem reload_race_mixes_table_generations :
    (((oneDispatchOneReload unfilteredGlobals (some billingRecord)).run demoHost
        scheduleStoreAfterReload).dispatched 0 =
      some (0, [("cdr_table".toList, [ast_variable_new "dst".toList "12345".toList []])]) ∧
     dispatchOn demoHost unfilteredGlobals (some billingRecord) =
      some (0, [("CDR".toList, [ast_variable_new "dst".toList "12345".toList []])]) ∧
     dispatchOn demoHost (reload demoHost unfilteredGlobals).globals (some billingRecord) =
      some (0, [("cdr_table".toList, [ast_variable_new "dst".toList "12345".toList [],
                                      ast_variable_new "src".toList "100".toList []])])) ∧
    (((oneDispatchOneReload unfilteredGlobals (some otherRecord)).run demoHost
        scheduleFilterBeforeReload).dispatched 0 =
      some (0, [("cdr_table".toList, [ast_variable_new "dst".toList "12345".toList [],
                                      ast_variable_new "src".toList "100".toList []])]) ∧
     dispatchOn demoHost unfilteredGlobals (some otherRecord) =
      some (0, [("CDR".toList, [ast_variable_new "dst".toList "12345".toList []])]) ∧
     dispatchOn demoHost (reload demoHost unfilteredGlobals).globals (some otherRecord) =
      some (0, [])) ∧
    (((oneDispatchOneReload unfilteredGlobals (some billingRecord)).run demoHost
        scheduleTestDuringReload).dispatched 0 = some (0, []) ∧
     ((oneDispatchOneReload unfilteredGlobals (some billingRecord)).run demoHost
        scheduleTestDuringReload).reloaded 1 = some 0 ∧
     ((oneDispatchOneReload unfilteredGlobals (some billingRecord)).run demoHost
        scheduleTestDuringReload).globals = (reload demoHost unfilteredGlobals).globals) := by
  refine ⟨⟨?_, ?_, ?_⟩, ⟨?_, ?_, ?_⟩, ⟨?_, ?_, ?_⟩⟩ <;> decide

end CdrRealtime
